import Mathlib

/-!
Verification of the conversation state machine of the sensor-installation
chatbot (`rag/state.py`, `rag/bot.py`, `rag/templates.py`).

The Python code is shallowly embedded: the mutable `ConversationState` object
becomes a record that handlers transform; handlers return the new state
together with the response text.  Python string operations (`in`, `.lower()`,
`.strip()`, `str.format`) are re-implemented over `List Char` so that every
definition is executable and kernel-reducible.
-/

/-- Python `pat in s` (substring containment) on character lists. -/
def subListOf (pat : List Char) : List Char → Bool
  | [] => pat.isEmpty
  | c :: rest => pat.isPrefixOf (c :: rest) || subListOf pat rest

/-- Python `pat in s` for strings. -/
def strIn (pat s : String) : Bool := subListOf pat.data s.data

/-- Python `s.lower()` (ASCII case folding, which is all the bot compares). -/
def pyLower (s : String) : String := String.mk (s.data.map Char.toLower)

/-- Python truthiness of an optional string: `None` and `""` are falsy. -/
def falsyStr : Option String → Bool
  | none => true
  | some s => s.data.isEmpty

/-- Python truthiness of an optional integer: `None` and `0` are falsy. -/
def falsyNat : Option Nat → Bool
  | none => true
  | some n => n == 0

/-- Python `x or default` on an optional string (falsy values replaced). -/
def orDefault (o : Option String) (d : String) : String :=
  match o with
  | none => d
  | some s => if s.data.isEmpty then d else s

/-- Python `str(x)` for an optional string interpolated into a format string:
`None` prints as `"None"`. -/
def pyStr (o : Option String) : String := o.getD "None"

/-- Decimal rendering of a natural number (Python `str(n)`). -/
def natStr (n : Nat) : String := toString n

/-- Python `str(x)` for an optional integer: `None` prints as `"None"`. -/
def pyStrNat : Option Nat → String
  | none => "None"
  | some n => natStr n

/-- Python `"sep".join(l)`. -/
def joinSep (sep : String) : List String → String
  | [] => ""
  | [x] => x
  | x :: rest => x ++ sep ++ joinSep sep rest

/-- Python `s.strip()`: drop whitespace from both ends. -/
def pyStrip (s : String) : String :=
  String.mk (((s.data.dropWhile Char.isWhitespace).reverse.dropWhile
      Char.isWhitespace).reverse)

/-- Leading run of decimal digits. -/
def takeDigitRun : List Char → List Char
  | [] => []
  | c :: rest => if c.isDigit then c :: takeDigitRun rest else []

/-- First maximal run of decimal digits in the text, as matched by the
Python regex search for one or more digits. -/
def firstDigitRun : List Char → Option (List Char)
  | [] => none
  | c :: rest =>
    if c.isDigit then some (takeDigitRun (c :: rest)) else firstDigitRun rest

/-- Numeric value of a digit run (Python `int(...)` on the match). -/
def digitsToNat (l : List Char) : Nat :=
  l.foldl (fun a c => a * 10 + (c.toNat - 48)) 0

/-- `rag/state.py` — `ConversationStage`, the nine ordered stages. -/
inductive ConversationStage where
  | WELCOME
  | MACHINE_SELECTION
  | CONFIGURATION_SELECTION
  | ADDITIONAL_INFO
  | SENSOR_COUNT
  | RECOMMENDATION
  | INSTALLATION_START
  | INSTALLATION_STEPS
  | INSTALLATION_COMPLETE
deriving DecidableEq, Repr

/-- The numeric `.value` of a stage, as assigned in `rag/state.py`. -/
def ConversationStage.value : ConversationStage → Nat
  | .WELCOME => 0
  | .MACHINE_SELECTION => 1
  | .CONFIGURATION_SELECTION => 2
  | .ADDITIONAL_INFO => 3
  | .SENSOR_COUNT => 4
  | .RECOMMENDATION => 5
  | .INSTALLATION_START => 6
  | .INSTALLATION_STEPS => 7
  | .INSTALLATION_COMPLETE => 8

/-- Python `ConversationStage(idx)` for `idx` in `0..8`.  The Python call
raises on any other value; `advance_stage` only invokes it after checking
the bound, so the default branch is unreachable there. -/
def ConversationStage.ofValue : Nat → ConversationStage
  | 0 => .WELCOME
  | 1 => .MACHINE_SELECTION
  | 2 => .CONFIGURATION_SELECTION
  | 3 => .ADDITIONAL_INFO
  | 4 => .SENSOR_COUNT
  | 5 => .RECOMMENDATION
  | 6 => .INSTALLATION_START
  | 7 => .INSTALLATION_STEPS
  | 8 => .INSTALLATION_COMPLETE
  | _ => .WELCOME

/-- `ConversationState.advance_stage`, acting on the stage alone: move to the
next index unless that would leave the defined range (`len(ConversationStage)`
is 9). -/
def ConversationStage.advanced (st : ConversationStage) : ConversationStage :=
  let current_idx := st.value
  let next_idx := current_idx + 1
  if next_idx < 9 then ConversationStage.ofValue next_idx else st

/-- `rag/state.py` — `ConversationState`.  Optional fields are `None` until
collected; `current_step` is `None` until the installation-steps stage is
entered. -/
structure ConversationState where
  stage : ConversationStage
  machine_type : Option String
  configuration : Option String
  orientation : Option String
  rpm : Option Nat
  sensor_count : Option Nat
  monitoring_target : Option String
  recommended_placement : List String
  installation_method : Option String
  current_step : Option Nat
  installation_complete : Bool
  issues : List String
deriving DecidableEq, Repr

/-- `ConversationState.__init__` / `reset`: the freshly constructed state. -/
def ConversationState.init : ConversationState where
  stage := .WELCOME
  machine_type := none
  configuration := none
  orientation := none
  rpm := none
  sensor_count := none
  monitoring_target := none
  recommended_placement := []
  installation_method := none
  current_step := none
  installation_complete := false
  issues := []

/-- `ConversationState.advance_stage`. -/
def ConversationState.advance_stage (s : ConversationState) : ConversationState :=
  { s with stage := s.stage.advanced }

/-- `ConversationState.add_issue`. -/
def ConversationState.add_issue (s : ConversationState) (issue : String) :
    ConversationState :=
  { s with issues := s.issues ++ [issue] }

/-- One element of the list-shaped `entities` payload of an LLM intent. -/
structure IntentEntity where
  etype : Option String
  value : Option String
deriving DecidableEq, Repr

/-- A structured intent returned by the optional LLM extractor
(`_get_intent_with_llm`).  The extractor is an external best-effort
collaborator returning parsed JSON; entity values are modelled as strings.
Every claim below instantiates the intent with `none` (extractor absent),
as the spec requires the core to function with it always absent. -/
structure Intent where
  primary_intent : Option String
  entities_dict : Option (List (String × String))
  entities_list : Option (List IntentEntity)
  is_affirmative : Option Bool
deriving DecidableEq, Repr

/-- The entity-lookup pattern shared by the handlers: on a dict-shaped
`entities` take the value at the key; on a list shape take the value of the
last element whose type matches (the Python loop has no break). -/
def intentEntity (intent : Option Intent) (key : String) : Option String :=
  match intent with
  | none => none
  | some it =>
    match it.entities_dict with
    | some kv => (kv.find? (fun p => p.1 = key)).map (fun p => p.2)
    | none =>
      match it.entities_list with
      | some l =>
        l.foldl (fun acc e => if e.etype = some key then e.value else acc) none
      | none => none

/-- Numeric entity lookup (the `"number"` entity); the decimal string value
is parsed.  Dead under every claim (all take the intent absent). -/
def intentEntityNat (intent : Option Intent) (key : String) : Option Nat :=
  (intentEntity intent key).bind String.toNat?

/-- One step of an installation method: `{title, description}`. -/
structure StepItem where
  title : Option String
  description : Option String
deriving DecidableEq, Repr

/-- One element of an installation method's `steps` array; the bot only ever
reads its `description` list (`steps[0].get("description", [])`). -/
structure StepsBlock where
  description : List StepItem
deriving DecidableEq, Repr

/-- An installation method in the knowledge base.  A missing or empty
`steps` key is modelled as the empty list: the bot always checks
`"steps" in im and im["steps"]`, which identifies the two. -/
structure InstallationMethod where
  name : Option String
  steps : List StepsBlock
deriving DecidableEq, Repr

/-- A machine entry (`machine.get("installation_methods", [])`). -/
structure Machine where
  installation_methods : List InstallationMethod
deriving DecidableEq, Repr

/-- The knowledge base (`kb.get("machines", [])`). -/
structure KnowledgeBase where
  machines : List Machine
deriving DecidableEq, Repr

/-- A per-step video segment (`video_segments[step]`), with the fields the
bot reads. -/
structure VideoSegment where
  title : String
  start_time : String
  end_time : String
  video_path : String
deriving DecidableEq, Repr

/-- The full installation video (`video_segments["full"]`):
`video_path` is accessed by key (required), `duration` via `.get`. -/
structure FullSegment where
  duration : Option String
  video_path : String
deriving DecidableEq, Repr

/-- The bot's read-only environment: the loaded knowledge base, the video
segments prepared by the external `VideoProcessor`, and the filesystem
queried by `os.path.exists` in `_format_video_reference`. -/
structure BotEnv where
  knowledge_base : KnowledgeBase
  video_segments : Nat → Option VideoSegment
  full_segment : Option FullSegment
  fileExists : String → Bool

/-- An environment with an empty knowledge base, no videos, no files. -/
def emptyEnv : BotEnv where
  knowledge_base := { machines := [] }
  video_segments := fun _ => none
  full_segment := none
  fileExists := fun _ => false

/-! Templates from `rag/templates.py`.  Python triple-quoted literals keep
their leading and trailing newlines; `str.format` placeholders become
function arguments interpolated by concatenation. -/

def WELCOME_MESSAGE : String :=
  "\n👋 Welcome to the ProAxion Sensor Installation Assistant!\n\nI\x27ll help you determine the optimal sensor placement for your machine and guide you through the installation process step-by-step.\n\nTo get started, please tell me what type of machine you\x27re working with: Fan, Motor, or Pump?\n"

def FAN_CONFIGURATION_PROMPT : String :=
  "\nGreat! Let\x27s set up your fan sensors.\n\nWhat type of fan configuration do you have?\n- Belt Driven: Uses belts and pulleys to connect motor and fan\n- Direct/Close Coupled: Motor shaft directly connected to fan\n- Independent Bearing: Separate bearing system for the fan shaft\n\nPlease select one of these options or describe your setup.\n"

def MOTOR_CONFIGURATION_PROMPT : String :=
  "\nGreat! Let\x27s set up your motor sensors.\n\nWhat type of motor configuration do you have?\n- AC Induction Motor\n- DC Motor\n- Synchronous Motor\n- Variable Frequency Drive (VFD)\n\nPlease select one of these options or describe your setup.\n"

def PUMP_CONFIGURATION_PROMPT : String :=
  "\nGreat! Let\x27s set up your pump sensors.\n\nWhat type of pump configuration do you have?\n- Centrifugal Pump\n- Positive Displacement Pump\n- Submersible Pump\n- Vertical Turbine Pump\n\nPlease select one of these options or describe your setup.\n"

def ORIENTATION_PROMPT_fmt (machine_type : String) : String :=
  "\nIs your " ++ machine_type ++ " center hung or overhung?\n\n- Center Hung: Support on both sides of the " ++ machine_type ++ "\n- Overhung: Support on only one side\n"

def RPM_PROMPT_fmt (machine_type : String) : String :=
  "\nWhat is the operational speed of your " ++ machine_type ++ " in RPM?\n\nThis helps determine the optimal sensor configuration for your specific equipment.\n"

def SENSOR_COUNT_PROMPT : String :=
  "\nHow many sensors do you currently have available for installation?\n\nThis will help me recommend the most effective placement based on your available resources.\n"

def MONITORING_TARGET_PROMPT : String :=
  "\nIs there a specific part of the machine you\x27d like to monitor?\n\nFor example:\n- Motor bearings\n- Fan housing\n- Drive shaft\n- Coupling\n\nOr type \"general\" if you want a recommendation for overall monitoring.\n"

def RECOMMENDATION_TEMPLATE_fmt (configuration machine_type : String)
    (ideal_count sensor_count : Nat) (recommendations : String) : String :=
  "\nBased on your " ++ configuration ++ " " ++ machine_type ++ " configuration, the ideal setup would be " ++ natStr ideal_count ++ " sensors for comprehensive monitoring.\n\nWith your " ++ natStr sensor_count ++ " available sensor(s), here\x27s my recommendation for optimal placement:\n\n" ++ recommendations ++ "\n\nWould you like to proceed with the installation instructions?\n"

def INSTALLATION_METHOD_PROMPT_fmt (machine_type recommended_method : String) : String :=
  "\nFor your " ++ machine_type ++ " configuration, I recommend the " ++ recommended_method ++ " installation method for the most secure and accurate readings.\n\nWould you like to proceed with this method, or would you prefer to use a different method?\n- Drill and Tap (recommended for permanent installations)\n- Epoxy Mount (alternative permanent installation)\n- Magnetic Mount (not recommended for vibration monitoring)\n- Other Adapter Options\n"

def INSTALLATION_START_TEMPLATE_fmt (method materials : String) : String :=
  "\nGreat! Let\x27s install your sensor using the " ++ method ++ " method. I\x27ll guide you through each step.\n\nHere\x27s what you\x27ll need:\n" ++ materials ++ "\n\nWould you like to see the full installation video, or shall we proceed step by step?\n- Show me the full video\n- Guide me step by step\n"

/-- `INSTALLATION_MATERIALS.get(method, default)`. -/
def INSTALLATION_MATERIALS (method : String) : List String :=
  if method = "Drill and Tap" then
    ["Drill with appropriate bit", "¼\"-28 thread tap", "Spot-face tool",
     "Thread locker", "Silicone sealant", "Sensor with threaded stud"]
  else if method = "Epoxy Mount" then
    ["High-strength adhesive", "Epoxy-mounting adapter (for curved surfaces)",
     "Cleaning solvent", "Sensor"]
  else if method = "Magnets" then
    ["Magnetic mount sensor", "Cleaning solvent", "Safety gloves"]
  else if method = "Other Adapter Options" then
    ["Appropriate adapter for your setup", "Mounting hardware", "Sensor"]
  else
    ["Sensor and necessary installation tools"]

def STEP_GUIDANCE_TEMPLATE_fmt (step_number total_steps : Nat)
    (step_title step_description : String) : String :=
  "\nStep " ++ natStr step_number ++ " of " ++ natStr total_steps ++ ": " ++ step_title ++ "\n\n" ++ step_description ++ "\n\nAre you ready for the next step, or would you like to see a video of this step?\n- I\x27m ready for the next step\n- Show me a video of this step\n- I need help with this step\n"

def VIDEO_SEGMENT_TEMPLATE_fmt (title start_time end_time video_path : String) : String :=
  "\nHere\x27s a video segment showing " ++ title ++ " (" ++ start_time ++ "-" ++ end_time ++ "):\n\n[VIDEO: " ++ video_path ++ "]\n\nDoes this help with your current step?\n"

def FULL_VIDEO_TEMPLATE_fmt (duration video_path : String) : String :=
  "\nHere\x27s the complete installation video (" ++ duration ++ "):\n\n[VIDEO: " ++ video_path ++ "]\n\nThe video covers all steps from start to finish. Would you like me to also guide you through the specific steps?\n- Yes, guide me through the steps\n- No, I\x27ll follow the video\n"

def INSTALLATION_COMPLETE_MESSAGE_fmt (method : String) : String :=
  "\nCongratulations! You\x27ve successfully installed your sensor using the " ++ method ++ " method.\n\nAfter installation, please check that:\n1. The sensor is properly secured\n2. The sensor cable is not under tension\n3. The sensor is not in contact with moving parts\n4. The sensor readings appear in your monitoring system\n\nIs everything working correctly?\n"

def SUCCESSFUL_INSTALLATION_MESSAGE : String :=
  "\nGreat! Your sensor installation is complete. \n\nIf you have any questions in the future or need to install more sensors, just let me know.\n\nWould you like assistance with anything else?\n"

def HELP_OPTIONS_MESSAGE : String :=
  "\nI understand installation can be challenging. Would you like me to:\n1. Give more detailed instructions for this step\n2. Show you a video for this part specifically\n3. Connect you with ProAxion support\n"

def SUPPORT_ESCALATION_MESSAGE : String :=
  "\nI\x27ll be happy to connect you with our experts. Please fill out this form and a ProAxion representative will contact you:\n[FORM LINK: https://www.proaxion.io/support]\n\nIn the meantime, you can review our installation guides or call our technical support line at 1-800-555-0123.\n"

def INSTALLATION_ISSUE_MESSAGE_fmt (specific_issues : String) : String :=
  "\nI understand you\x27re experiencing an issue. Let me connect you with ProAxion support for assistance.\n\nPlease contact support@proaxion.io and mention the following issues:\n1. Problem with sensor installation\n2. " ++ specific_issues ++ "\n\nIn the meantime, please verify:\n- The sensor is firmly attached\n- Connections are secure\n- No obstructions are present\n"

def MACHINE_TYPE_ERROR : String :=
  "I didn\x27t understand your machine type. Please specify: Fans, Motors, or Pumps."

def CONFIGURATION_ERROR_fmt (machine_type : String) : String :=
  "Please specify your " ++ machine_type ++ " configuration from the options provided."

def ORIENTATION_ERROR_fmt (machine_type : String) : String :=
  "Please specify if your " ++ machine_type ++ " is center hung or overhung."

def RPM_ERROR : String :=
  "Please provide the operational speed in RPM (e.g., 1750)."

def SENSOR_COUNT_ERROR : String :=
  "Please provide the number of sensors you have available."

/-! Extraction helpers and classifiers from `rag/bot.py`. -/

/-- `_extract_machine_type`. -/
def extract_machine_type (message : String) : Option String :=
  let m := pyLower message
  if strIn "fan" m then some "Fan"
  else if strIn "motor" m then some "Motor"
  else if strIn "pump" m then some "Pump"
  else none

/-- `_extract_configuration`. -/
def extract_configuration (message : String) : Option String :=
  let m := pyLower message
  if strIn "belt" m then some "Belt Driven"
  else if strIn "direct" m || strIn "close" m || strIn "coupled" m then
    some "Direct/Close Coupled"
  else if strIn "independent" m || strIn "bearing" m then
    some "Independent Bearing"
  else none

/-- `_extract_orientation`. -/
def extract_orientation (message : String) : Option String :=
  let m := pyLower message
  if strIn "center" m then some "Center Hung"
  else if strIn "over" m then some "Overhung"
  else none

/-- `_extract_rpm`: first digit run in the raw message. -/
def extract_rpm (message : String) : Option Nat :=
  (firstDigitRun message.data).map digitsToNat

/-- `_extract_number`: identical body to `_extract_rpm` in the source. -/
def extract_number (message : String) : Option Nat :=
  (firstDigitRun message.data).map digitsToNat

/-- `_extract_monitoring_target`. -/
def extract_monitoring_target (message : String) : Option String :=
  let m := pyLower message
  if strIn "motor" m then some "Motor"
  else if strIn "bearing" m then some "Bearing"
  else if strIn "fan" m && strIn "housing" m then some "Fan Housing"
  else if strIn "fan" m then some "Fan"
  else if strIn "general" m then some "General"
  else none

/-- `_is_affirmative`: any word of the fixed list occurring anywhere in the
lowercased message. -/
def is_affirmative (message : String) : Bool :=
  let affirmatives := ["yes", "yeah", "sure", "ok", "okay", "ready", "proceed",
    "continue", "yep", "correct", "right", "good", "fine", "true", "y", "yup",
    "absolutely"]
  let m := pyLower message
  affirmatives.any (fun word => strIn word m)

/-- `_is_negative`: any word of the fixed list (including the single letter
`"n"`) occurring anywhere in the lowercased message. -/
def is_negative (message : String) : Bool :=
  let negatives := ["no", "nope", "nah", "not", "none", "don\x27t", "dont",
    "negative", "n", "false"]
  let m := pyLower message
  negatives.any (fun word => strIn word m)

/-- `_get_timestamp_for_step`. -/
def get_timestamp_for_step (step_number : Nat) : String :=
  if step_number = 1 then "0:09"
  else if step_number = 2 then "0:20"
  else if step_number = 3 then "0:38"
  else if step_number = 4 ∨ step_number = 5 then "0:50"
  else "1:24"

/-- `_format_video_reference`: embed the token only when the file exists on
disk, otherwise a NOT FOUND marker. -/
def format_video_reference (env : BotEnv) (video_path : String) : String :=
  if env.fileExists video_path then "[VIDEO: " ++ video_path ++ "]"
  else "[VIDEO NOT FOUND: " ++ video_path ++ "]"

/-! Knowledge-base lookups from `rag/bot.py`. -/

/-- Inner loop of `_get_total_steps`: within one machine, return the step
count of the first method whose name matches and whose `steps` list is
non-empty; a matching method without steps does not return, the scan goes
on. -/
def totalStepsInMachine (method : Option String) :
    List InstallationMethod → Option Nat
  | [] => none
  | im :: rest =>
    if im.name == method then
      match im.steps with
      | b :: _ => some b.description.length
      | [] => totalStepsInMachine method rest
    else totalStepsInMachine method rest

/-- Outer loop of `_get_total_steps`: first machine producing a count wins
(the Python `return` leaves both loops). -/
def totalStepsScan (method : Option String) : List Machine → Option Nat
  | [] => none
  | mach :: rest =>
    match totalStepsInMachine method mach.installation_methods with
    | some n => some n
    | none => totalStepsScan method rest

/-- `_get_total_steps`: knowledge-base step count with the fallback of 6
when no data is found. -/
def get_total_steps (kb : KnowledgeBase) (method : Option String) : Nat :=
  (totalStepsScan method kb.machines).getD 6

/-- Inner loop of `_get_step_guidance`: within one machine, the first method
whose name matches and has a non-empty `steps` list assigns the step list and
breaks; a matching method without steps is skipped. -/
def stepsInMachine (method : Option String) :
    List InstallationMethod → Option (List StepItem)
  | [] => none
  | im :: rest =>
    if im.name == method then
      match im.steps with
      | b :: _ => some b.description
      | [] => stepsInMachine method rest
    else stepsInMachine method rest

/-- Outer loop of `_get_step_guidance`: the `break` only leaves the inner
loop, so a later machine with the same method overwrites the `steps`
variable.  The fold keeps the last assignment. -/
def findSteps (machines : List Machine) (method : Option String) :
    List StepItem :=
  machines.foldl
    (fun acc mach => (stepsInMachine method mach.installation_methods).getD acc)
    []

/-- The generic fallback text of `_get_step_guidance` when the method or the
step index has no knowledge-base data. -/
def genericStepText (step_number : Nat) : String :=
  STEP_GUIDANCE_TEMPLATE_fmt step_number (max 6 (step_number + 2))
    ("Continue Installation - Step " ++ natStr step_number)
    "Please continue following the installation procedure according to the manufacturer\x27s guidelines."

/-- `_get_step_guidance` (the later of the two definitions in the class body,
which is the one Python keeps): step lookup with generic fallback, plus an
embedded video reference when a segment is registered for the step.  The
Python index `steps[step_number - 1]` is only reached with
`1 ≤ step_number ≤ len(steps)` by the callers; step number 0 (a Python
negative index) is outside the modelled range. -/
def get_step_guidance (env : BotEnv) (method : Option String)
    (step_number : Nat) : String :=
  let steps := findSteps env.knowledge_base.machines method
  if steps = [] ∨ steps.length < step_number then
    genericStepText step_number
  else
    let step := steps.getD (step_number - 1) { title := none, description := none }
    let video_reference :=
      match env.video_segments step_number with
      | some segment => format_video_reference env segment.video_path
      | none => ""
    let response := STEP_GUIDANCE_TEMPLATE_fmt step_number steps.length
      (step.title.getD ("Step " ++ natStr step_number))
      (step.description.getD "")
    if video_reference = "" then response
    else response ++ "\n\n" ++ video_reference

/-! Stage handlers from `rag/bot.py`.  Each handler returns the state after
the handler's mutations together with the response text. -/

/-- `_handle_welcome`: advance unconditionally and emit the welcome text. -/
def handle_welcome (state : ConversationState) : ConversationState × String :=
  (state.advance_stage, WELCOME_MESSAGE)

/-- `_handle_machine_selection`. -/
def handle_machine_selection (state : ConversationState) (message : String)
    (intent : Option Intent) : ConversationState × String :=
  let mt0 := intentEntity intent "machine_type"
  let machine_type := if falsyStr mt0 then extract_machine_type message else mt0
  if falsyStr machine_type then
    (state, MACHINE_TYPE_ERROR)
  else
    let v := machine_type.getD ""
    let state := ({ state with machine_type := machine_type }).advance_stage
    if v = "Fan" then (state, FAN_CONFIGURATION_PROMPT)
    else if v = "Motor" then (state, MOTOR_CONFIGURATION_PROMPT)
    else if v = "Pump" then (state, PUMP_CONFIGURATION_PROMPT)
    else (state, "Please specify the configuration for your " ++ v ++ ".")

/-- `_handle_configuration`. -/
def handle_configuration (state : ConversationState) (message : String)
    (intent : Option Intent) : ConversationState × String :=
  let c0 := intentEntity intent "configuration"
  let configuration := if falsyStr c0 then extract_configuration message else c0
  if falsyStr configuration then
    (state, CONFIGURATION_ERROR_fmt (pyStr state.machine_type))
  else
    (({ state with configuration := configuration }).advance_stage,
      ORIENTATION_PROMPT_fmt (pyStr state.machine_type))

/-- `_handle_additional_info`: orientation first, then RPM. -/
def handle_additional_info (state : ConversationState) (message : String)
    (intent : Option Intent) : ConversationState × String :=
  if falsyStr state.orientation then
    let o0 := intentEntity intent "orientation"
    let orientation := if falsyStr o0 then extract_orientation message else o0
    if falsyStr orientation then
      (state, ORIENTATION_ERROR_fmt (pyStr state.machine_type))
    else
      ({ state with orientation := orientation },
        RPM_PROMPT_fmt (pyStr state.machine_type))
  else
    let r0 := intentEntityNat intent "number"
    let rpm := if falsyNat r0 then extract_rpm message else r0
    if falsyNat rpm then
      (state, RPM_ERROR)
    else
      (({ state with rpm := rpm }).advance_stage, SENSOR_COUNT_PROMPT)

/-- `_handle_sensor_count`. -/
def handle_sensor_count (state : ConversationState) (message : String)
    (intent : Option Intent) : ConversationState × String :=
  let n0 := intentEntityNat intent "number"
  let sensor_count := if falsyNat n0 then extract_number message else n0
  if falsyNat sensor_count then
    (state, SENSOR_COUNT_ERROR)
  else
    (({ state with sensor_count := sensor_count }).advance_stage,
      MONITORING_TARGET_PROMPT)

/-- The Direct/Close Coupled placement list: Motor DE always, Motor NDE from
two sensors, fan shaft bearings from three (the conditional appends of the
source, written as list concatenation). -/
def directRecommendations (sensor_count : Nat) : List String :=
  ["Motor Drive-End (DE) - HIGHEST PRIORITY"]
    ++ (if 2 ≤ sensor_count then ["Motor Non-Drive-End (NDE) - For motors ≥ 150 hp"] else [])
    ++ (if 3 ≤ sensor_count then ["Fan shaft bearings (if accessible)"] else [])

/-- The Belt Driven placement list: Motor DE always, Motor NDE from two
sensors, belt-side bearing from three, fan-side bearing from four. -/
def beltRecommendations (sensor_count : Nat) : List String :=
  ["Motor Drive-End (DE) - HIGHEST PRIORITY"]
    ++ (if 2 ≤ sensor_count then ["Motor Non-Drive-End (NDE) - For motors ≥ 150 hp"] else [])
    ++ (if 3 ≤ sensor_count then ["Belt-Side bearing"] else [])
    ++ (if 4 ≤ sensor_count then ["Fan-Side bearing"] else [])

/-- The Belt Driven detail lines, appended in lockstep with the
recommendations. -/
def beltDetails (sensor_count : Nat) : List String :=
  ["This bearing experiences the most load and stress, making it critical for monitoring."]
    ++ (if 2 ≤ sensor_count then ["Larger motors benefit from monitoring both ends for a complete vibration profile."] else [])
    ++ (if 3 ≤ sensor_count then ["This bearing transfers power from motor to fan, critical for early fault detection."] else [])
    ++ (if 4 ≤ sensor_count then ["Supports fan shaft, important for complete system coverage."] else [])

/-- The numbered join of the Direct/Close Coupled recommendation block. -/
def numberedJoin (recs : List String) : String :=
  joinSep "\n\n" (recs.enum.map (fun p => natStr (p.1 + 1) ++ ". " ++ p.2))

/-- The Belt Driven recommendation block: numbered recommendation, indented
detail, blank line; then stripped. -/
def beltRecText (recs details : List String) : String :=
  pyStrip (String.join (((recs.zip details).enum.map
    (fun p => natStr (p.1 + 1) ++ ". " ++ p.2.1 ++ "\n   " ++ p.2.2 ++ "\n\n"))))

/-- The generic recommendation f-string for configurations outside the two
known types. -/
def genericRecommendationText (configuration : String) (sensor_count : Option Nat) :
    String :=
  "\nBased on your " ++ configuration ++ " configuration, I recommend placing your " ++ pyStrNat sensor_count ++ " sensor(s) on the most critical components for monitoring.\n\nWould you like to proceed with the installation instructions?\n"

/-- `_handle_recommendation`.  The Python comparisons on
`state.sensor_count` would raise on `None`; this handler is only dispatched
after the sensor-count stage set the field, modelled by the default 0. -/
def handle_recommendation (env : BotEnv) (state : ConversationState)
    (message : String) (intent : Option Intent) : ConversationState × String :=
  if falsyStr state.monitoring_target then
    let mt0 := intentEntity intent "monitoring_target"
    let mt1 := if falsyStr mt0 then extract_monitoring_target message else mt0
    let mt2 := if is_negative message then some "General" else mt1
    let state := { state with monitoring_target := some (orDefault mt2 "General") }
    let n := state.sensor_count.getD 0
    if state.configuration = some "Direct/Close Coupled" then
      let ideal_count := 3
      let recommendations := directRecommendations n
      let state := { state with recommended_placement := recommendations }
      (state, RECOMMENDATION_TEMPLATE_fmt (pyStr state.configuration)
        (pyStr state.machine_type) ideal_count n (numberedJoin recommendations))
    else if state.configuration = some "Belt Driven" then
      let ideal_count := 4
      let recommendations := beltRecommendations n
      let recommendation_details := beltDetails n
      let state := { state with recommended_placement := recommendations }
      (state, RECOMMENDATION_TEMPLATE_fmt (pyStr state.configuration)
        (pyStr state.machine_type) ideal_count n
        (beltRecText recommendations recommendation_details))
    else
      (state, genericRecommendationText (pyStr state.configuration)
        state.sensor_count)
  else
    let aff0 := (intent.bind (fun it => it.is_affirmative)).getD false
    let aff := if aff0 then true else is_affirmative message
    if aff then
      let state := state.advance_stage
      -- The Python scan over the knowledge base can only reassign the very
      -- constant that initialises `method`, so both branches coincide.
      let method :=
        if env.knowledge_base.machines.any (fun mach =>
            mach.installation_methods.any (fun im => im.name == some "Drill and Tap"))
        then "Drill and Tap" else "Drill and Tap"
      (state, INSTALLATION_METHOD_PROMPT_fmt (pyStr state.machine_type) method)
    else
      ({ state with monitoring_target := none }, MONITORING_TARGET_PROMPT)

/-- `_handle_installation_start`.  Selecting a method makes the surrounding
system prepare video segments through the external `VideoProcessor`; those
segments are the fixed `env.video_segments` mapping here. -/
def handle_installation_start (env : BotEnv) (state : ConversationState)
    (message : String) (intent : Option Intent) : ConversationState × String :=
  let m := pyLower message
  if falsyStr state.installation_method then
    let cm0 := intentEntity intent "installation_method"
    let chosen_method :=
      if falsyStr cm0 then
        if strIn "yes" m || strIn "drill" m || strIn "tap" m then
          some "Drill and Tap"
        else if strIn "epoxy" m || strIn "adhesive" m then some "Epoxy Mount"
        else if strIn "magnet" m then some "Magnets"
        else if strIn "adapter" m then some "Other Adapter Options"
        else none
      else cm0
    if falsyStr chosen_method then
      (state, "Please select an installation method: Drill and Tap (recommended), Epoxy Mount, Other Adapter Options, or Magnets.")
    else
      let state := { state with installation_method := chosen_method }
      let materials := INSTALLATION_MATERIALS (chosen_method.getD "")
      let materials_text := joinSep "\n" (materials.map (fun x => "- " ++ x))
      (state, INSTALLATION_START_TEMPLATE_fmt (chosen_method.getD "") materials_text)
  else
    let pi := intent.bind (fun it => it.primary_intent)
    let wv0 := match pi with
      | some p => strIn "video" (pyLower p)
      | none => false
    let ws0 := match pi with
      | some p => strIn "step" (pyLower p) || strIn "guide" (pyLower p)
      | none => false
    let wants_video :=
      if !wv0 && !ws0 then strIn "full video" m || strIn "show video" m else wv0
    let wants_steps :=
      if !wv0 && !ws0 then strIn "step by step" m || strIn "guide" m else ws0
    if wants_video then
      match env.full_segment with
      | some full_video =>
        let state := { state.advance_stage with current_step := some 1 }
        (state, FULL_VIDEO_TEMPLATE_fmt (full_video.duration.getD "1:41")
          full_video.video_path)
      | none =>
        let state := { state.advance_stage with current_step := some 1 }
        (state, get_step_guidance env state.installation_method 1)
    else if wants_steps || is_affirmative message then
      let state := { state.advance_stage with current_step := some 1 }
      (state, get_step_guidance env state.installation_method 1)
    else
      (state, "Would you like to see the full installation video, or shall we proceed step by step?")

/-- The fallback text of `_handle_installation_steps` offering the full video
when no per-step segment exists. -/
def fullVideoFallbackText (timestamp video_path : String) : String :=
  "\nI don\x27t have a specific video for just this step, but you can watch the full installation video and skip to around " ++ timestamp ++ ":\n\n[VIDEO: " ++ video_path ++ "]\n\nDoes this help?\n"

/-- `_handle_installation_steps`.  The Python `state.current_step += 1` and
the step lookups would raise on `None`; the dispatcher only reaches this
handler after `_handle_installation_start` set `current_step`, modelled by
the default 0. -/
def handle_installation_steps (env : BotEnv) (state : ConversationState)
    (message : String) (intent : Option Intent) : ConversationState × String :=
  let m := pyLower message
  let pi := intent.bind (fun it => it.primary_intent)
  let wants_video := match pi with
    | some p => strIn "video" (pyLower p) || strIn "show" (pyLower p)
    | none => false
  let needs_help := match pi with
    | some p => strIn "help" (pyLower p) || strIn "problem" (pyLower p)
    | none => false
  let wants_next := match pi with
    | some p => strIn "next" (pyLower p) || strIn "continue" (pyLower p)
        || strIn "ready" (pyLower p)
    | none => false
  if wants_video || strIn "video" m || strIn "show me" m then
    let step_reference := state.current_step.getD 0
    match env.video_segments step_reference with
    | some segment =>
      (state, VIDEO_SEGMENT_TEMPLATE_fmt segment.title segment.start_time
        segment.end_time segment.video_path)
    | none =>
      match env.full_segment with
      | some full_video =>
        (state, fullVideoFallbackText
          (get_timestamp_for_step (state.current_step.getD 0))
          full_video.video_path)
      | none =>
        (state, "I\x27m sorry, I don\x27t have a video available for this step. Would you like more detailed instructions?")
  else if needs_help || strIn "help" m || strIn "issue" m || strIn "problem" m then
    (state.add_issue ("Needed help with step " ++ pyStrNat state.current_step),
      HELP_OPTIONS_MESSAGE)
  else if strIn "proaxion" m || strIn "support" m || strIn "expert" m then
    (state, SUPPORT_ESCALATION_MESSAGE)
  else if wants_next || is_affirmative message || strIn "next" m
      || strIn "ready" m then
    let total_steps := get_total_steps env.knowledge_base state.installation_method
    let cs := state.current_step.getD 0 + 1
    let state := { state with current_step := some cs }
    if total_steps < cs then
      let state := ({ state with installation_complete := true }).advance_stage
      (state, INSTALLATION_COMPLETE_MESSAGE_fmt (pyStr state.installation_method))
    else
      (state, get_step_guidance env state.installation_method cs)
  else
    (state, get_step_guidance env state.installation_method
      (state.current_step.getD 0))

/-- `_handle_installation_complete`. -/
def handle_installation_complete (state : ConversationState) (message : String)
    (intent : Option Intent) : ConversationState × String :=
  let m := pyLower message
  let is0 := (intent.bind (fun it => it.is_affirmative)).getD false
  let has0 := match intent.bind (fun it => it.primary_intent) with
    | some p => strIn "issue" (pyLower p) || strIn "problem" (pyLower p)
    | none => false
  let is_successful :=
    if !is0 && !has0 then strIn "yes" m || strIn "working" m else is0
  let has_issue :=
    if !is0 && !has0 then
      strIn "issue" m || strIn "problem" m || strIn "not working" m
    else has0
  if is_successful then
    (state, SUCCESSFUL_INSTALLATION_MESSAGE)
  else if has_issue then
    let state := state.add_issue "Issue after installation"
    let issues_text := joinSep "\n" (state.issues.map (fun issue => "- " ++ issue))
    (state, INSTALLATION_ISSUE_MESSAGE_fmt issues_text)
  else
    (state, "Is your sensor working correctly? If you\x27re experiencing any issues, I can connect you with ProAxion support for assistance.")

/-- `InstallationBot.process_message` for one user: the reset short-circuit,
then dispatch on the current stage.  The `intent` argument is what the
optional LLM extractor produced (always `none` when the LLM is unavailable
or the message has at most three characters); the reset check precedes its
use.  The defensive unknown-stage fallback of the source is unreachable
because the stage enumeration is total. -/
def process_message (env : BotEnv) (state : ConversationState)
    (message : String) (intent : Option Intent) : ConversationState × String :=
  if pyLower message = "reset" then
    (ConversationState.init, WELCOME_MESSAGE)
  else
    match state.stage with
    | .WELCOME => handle_welcome state
    | .MACHINE_SELECTION => handle_machine_selection state message intent
    | .CONFIGURATION_SELECTION => handle_configuration state message intent
    | .ADDITIONAL_INFO => handle_additional_info state message intent
    | .SENSOR_COUNT => handle_sensor_count state message intent
    | .RECOMMENDATION => handle_recommendation env state message intent
    | .INSTALLATION_START => handle_installation_start env state message intent
    | .INSTALLATION_STEPS => handle_installation_steps env state message intent
    | .INSTALLATION_COMPLETE => handle_installation_complete state message intent

/-! Helper lemmas about stage movement. -/

lemma stage_value_le_advanced (st : ConversationStage) :
    st.value ≤ st.advanced.value := by
  cases st <;> decide

lemma advanced_value_of_ne (st : ConversationStage)
    (h : st ≠ ConversationStage.INSTALLATION_COMPLETE) :
    st.advanced.value = st.value + 1 := by
  cases st <;> first | decide | exact absurd rfl h

lemma advanced_terminal :
    ConversationStage.INSTALLATION_COMPLETE.advanced =
      ConversationStage.INSTALLATION_COMPLETE := by
  decide

lemma handle_welcome_stage (s : ConversationState) :
    (handle_welcome s).1.stage = s.stage.advanced := rfl

lemma handle_machine_selection_stage (s : ConversationState) (msg : String)
    (intent : Option Intent) :
    (handle_machine_selection s msg intent).1.stage = s.stage ∨
    (handle_machine_selection s msg intent).1.stage = s.stage.advanced := by
  unfold handle_machine_selection
  dsimp only
  repeat' split
  all_goals first | exact Or.inl rfl | exact Or.inr rfl

lemma handle_configuration_stage (s : ConversationState) (msg : String)
    (intent : Option Intent) :
    (handle_configuration s msg intent).1.stage = s.stage ∨
    (handle_configuration s msg intent).1.stage = s.stage.advanced := by
  unfold handle_configuration
  dsimp only
  repeat' split
  all_goals first | exact Or.inl rfl | exact Or.inr rfl

lemma handle_additional_info_stage (s : ConversationState) (msg : String)
    (intent : Option Intent) :
    (handle_additional_info s msg intent).1.stage = s.stage ∨
    (handle_additional_info s msg intent).1.stage = s.stage.advanced := by
  unfold handle_additional_info
  dsimp only
  repeat' split
  all_goals first | exact Or.inl rfl | exact Or.inr rfl

lemma handle_sensor_count_stage (s : ConversationState) (msg : String)
    (intent : Option Intent) :
    (handle_sensor_count s msg intent).1.stage = s.stage ∨
    (handle_sensor_count s msg intent).1.stage = s.stage.advanced := by
  unfold handle_sensor_count
  dsimp only
  repeat' split
  all_goals first | exact Or.inl rfl | exact Or.inr rfl

lemma handle_recommendation_stage (env : BotEnv) (s : ConversationState)
    (msg : String) (intent : Option Intent) :
    (handle_recommendation env s msg intent).1.stage = s.stage ∨
    (handle_recommendation env s msg intent).1.stage = s.stage.advanced := by
  unfold handle_recommendation
  dsimp only
  repeat' split
  all_goals first | exact Or.inl rfl | exact Or.inr rfl

lemma handle_installation_start_stage (env : BotEnv) (s : ConversationState)
    (msg : String) (intent : Option Intent) :
    (handle_installation_start env s msg intent).1.stage = s.stage ∨
    (handle_installation_start env s msg intent).1.stage = s.stage.advanced := by
  unfold handle_installation_start
  dsimp only
  repeat' split
  all_goals first | exact Or.inl rfl | exact Or.inr rfl

lemma handle_installation_steps_stage (env : BotEnv) (s : ConversationState)
    (msg : String) (intent : Option Intent) :
    (handle_installation_steps env s msg intent).1.stage = s.stage ∨
    (handle_installation_steps env s msg intent).1.stage = s.stage.advanced := by
  unfold handle_installation_steps
  dsimp only
  repeat' split
  all_goals first | exact Or.inl rfl | exact Or.inr rfl

lemma handle_installation_complete_stage (s : ConversationState) (msg : String)
    (intent : Option Intent) :
    (handle_installation_complete s msg intent).1.stage = s.stage ∨
    (handle_installation_complete s msg intent).1.stage = s.stage.advanced := by
  unfold handle_installation_complete
  dsimp only
  repeat' split
  all_goals first | exact Or.inl rfl | exact Or.inr rfl

lemma process_message_stage_mono (env : BotEnv) (s : ConversationState)
    (msg : String) (intent : Option Intent) (h : ¬ pyLower msg = "reset") :
    s.stage.value ≤ (process_message env s msg intent).1.stage.value := by
  unfold process_message
  rw [if_neg h]
  cases hst : s.stage
  case WELCOME =>
    have h1 := handle_welcome_stage s
    rw [hst] at h1
    rw [h1]; decide
  case MACHINE_SELECTION =>
    rcases handle_machine_selection_stage s msg intent with h1 | h1 <;>
      rw [hst] at h1 <;> rw [h1] <;> decide
  case CONFIGURATION_SELECTION =>
    rcases handle_configuration_stage s msg intent with h1 | h1 <;>
      rw [hst] at h1 <;> rw [h1] <;> decide
  case ADDITIONAL_INFO =>
    rcases handle_additional_info_stage s msg intent with h1 | h1 <;>
      rw [hst] at h1 <;> rw [h1] <;> decide
  case SENSOR_COUNT =>
    rcases handle_sensor_count_stage s msg intent with h1 | h1 <;>
      rw [hst] at h1 <;> rw [h1] <;> decide
  case RECOMMENDATION =>
    rcases handle_recommendation_stage env s msg intent with h1 | h1 <;>
      rw [hst] at h1 <;> rw [h1] <;> decide
  case INSTALLATION_START =>
    rcases handle_installation_start_stage env s msg intent with h1 | h1 <;>
      rw [hst] at h1 <;> rw [h1] <;> decide
  case INSTALLATION_STEPS =>
    rcases handle_installation_steps_stage env s msg intent with h1 | h1 <;>
      rw [hst] at h1 <;> rw [h1] <;> decide
  case INSTALLATION_COMPLETE =>
    rcases handle_installation_complete_stage s msg intent with h1 | h1 <;>
      rw [hst] at h1 <;> rw [h1] <;> decide

/-- C2: for every user state, at every stage, with every combination of
filled optional fields, a message equal to "reset" up to case is handled
before stage dispatch, leaves the stored state equal to a freshly
constructed `ConversationState` (stage WELCOME, all optional fields unset,
empty `recommended_placement` and `issues`, `installation_complete`
false), and returns exactly the fixed welcome text. -/
theorem c2_reset_precedence (env : BotEnv) (state : ConversationState)
    (message : String) (intent : Option Intent)
    (h : pyLower message = "reset") :
    process_message env state message intent =
      (ConversationState.init, WELCOME_MESSAGE) ∧
    ConversationState.init.stage = ConversationStage.WELCOME ∧
    ConversationState.init.machine_type = none ∧
    ConversationState.init.configuration = none ∧
    ConversationState.init.orientation = none ∧
    ConversationState.init.rpm = none ∧
    ConversationState.init.sensor_count = none ∧
    ConversationState.init.monitoring_target = none ∧
    ConversationState.init.recommended_placement = [] ∧
    ConversationState.init.installation_method = none ∧
    ConversationState.init.current_step = none ∧
    ConversationState.init.installation_complete = false ∧
    ConversationState.init.issues = [] := by
  refine ⟨?_, rfl, rfl, rfl, rfl, rfl, rfl, rfl, rfl, rfl, rfl, rfl, rfl⟩
  unfold process_message
  rw [if_pos h]

def c2WitnessState : ConversationState :=
  { ConversationState.init with stage := ConversationStage.SENSOR_COUNT, machine_type := some "Fan", configuration := some "Belt Driven", orientation := some "Center Hung", rpm := some 1750 }

theorem c2_reset_precedence_witness :
    pyLower "ReSeT" = "reset" ∧
    process_message emptyEnv c2WitnessState "ReSeT" none =
      (ConversationState.init, WELCOME_MESSAGE) :=
  ⟨by decide, (c2_reset_precedence emptyEnv c2WitnessState "ReSeT" none (by decide)).1⟩

/-- C3: `advance_stage` either increments the stage index by exactly one in
the fixed linear order or, from the terminal INSTALLATION_COMPLETE stage,
leaves the state unchanged; the stage never moves backward under
`advance_stage`, and the only operation of the engine moving the stage
backward is the full reset to the fresh WELCOME state. -/
theorem c3_stage_monotonicity (env : BotEnv) (s : ConversationState)
    (msg : String) (intent : Option Intent) :
    (s.stage ≠ ConversationStage.INSTALLATION_COMPLETE →
      s.advance_stage.stage.value = s.stage.value + 1) ∧
    (s.stage = ConversationStage.INSTALLATION_COMPLETE →
      s.advance_stage = s) ∧
    s.stage.value ≤ s.advance_stage.stage.value ∧
    (¬ pyLower msg = "reset" →
      s.stage.value ≤ (process_message env s msg intent).1.stage.value) ∧
    (pyLower msg = "reset" →
      (process_message env s msg intent).1 = ConversationState.init) := by
  refine ⟨?_, ?_, ?_, ?_, ?_⟩
  · intro h
    show s.stage.advanced.value = s.stage.value + 1
    exact advanced_value_of_ne s.stage h
  · intro h
    show { s with stage := s.stage.advanced } = s
    rw [h, advanced_terminal, ← h]
  · exact stage_value_le_advanced s.stage
  · exact process_message_stage_mono env s msg intent
  · intro h
    unfold process_message
    rw [if_pos h]

def c3TerminalState : ConversationState :=
  { ConversationState.init with stage := ConversationStage.INSTALLATION_COMPLETE }

theorem c3_stage_monotonicity_witness :
    ConversationState.init.advance_stage.stage.value =
      ConversationState.init.stage.value + 1 ∧
    c3TerminalState.advance_stage = c3TerminalState ∧
    ConversationState.init.stage.value ≤
      (process_message emptyEnv ConversationState.init "hello" none).1.stage.value ∧
    (process_message emptyEnv c3TerminalState "reset" none).1 =
      ConversationState.init :=
  ⟨(c3_stage_monotonicity emptyEnv ConversationState.init "hello" none).1 (by decide),
   (c3_stage_monotonicity emptyEnv c3TerminalState "hello" none).2.1 rfl,
   (c3_stage_monotonicity emptyEnv ConversationState.init "hello" none).2.2.2.1 (by decide),
   (c3_stage_monotonicity emptyEnv c3TerminalState "reset" none).2.2.2.2 (by decide)⟩

/-- C9: in stage RECOMMENDATION with `monitoring_target` unset and no
intent, the negative-response check runs after target extraction and
overrides its result, and the negative word list includes the single letter
"n"; any message containing an "n" anywhere is therefore classified
negative and yields `monitoring_target = "General"`, even when a specific
target was extracted — as for the message "bearing", from which the target
"Bearing" is extracted. -/
theorem c9_negative_n_overrides (env : BotEnv) (s : ConversationState)
    (msg : String)
    (hstage : s.stage = ConversationStage.RECOMMENDATION)
    (hmt : s.monitoring_target = none)
    (hn : strIn "n" (pyLower msg) = true) :
    is_negative msg = true ∧
    (handle_recommendation env s msg none).1.monitoring_target =
      some "General" ∧
    extract_monitoring_target "bearing" = some "Bearing" ∧
    strIn "n" (pyLower "bearing") = true := by
  have hneg : is_negative msg = true := by
    unfold is_negative
    simp only [List.any_eq_true]
    exact ⟨"n", by simp, hn⟩
  refine ⟨hneg, ?_, by decide, by decide⟩
  unfold handle_recommendation
  simp only [hmt, hneg, falsyStr, if_true, orDefault, ite_self]
  split
  · rfl
  · split
    · rfl
    · rfl

def c9WitnessState : ConversationState :=
  { ConversationState.init with stage := ConversationStage.RECOMMENDATION, machine_type := some "Fan", configuration := some "Belt Driven", orientation := some "Center Hung", rpm := some 1750, sensor_count := some 3 }

theorem c9_negative_n_overrides_witness :
    strIn "n" (pyLower "bearing") = true ∧
    (handle_recommendation emptyEnv c9WitnessState "bearing" none).1.monitoring_target =
      some "General" :=
  ⟨by decide,
   (c9_negative_n_overrides emptyEnv c9WitnessState "bearing" rfl rfl
      (by decide)).2.1⟩

/-- C10: in stage INSTALLATION_COMPLETE with no intent, the success
classification takes precedence over the issue classification: any message
containing "yes" or "working" is answered with the successful-installation
message and the state (in particular `issues`) is left unchanged — and the
message "not working" contains "working", so it is classified as a
successful installation. -/
theorem c10_success_precedence (s : ConversationState) (msg : String)
    (hstage : s.stage = ConversationStage.INSTALLATION_COMPLETE)
    (hsucc : (strIn "yes" (pyLower msg) || strIn "working" (pyLower msg)) = true) :
    handle_installation_complete s msg none =
      (s, SUCCESSFUL_INSTALLATION_MESSAGE) ∧
    (handle_installation_complete s msg none).1.issues = s.issues ∧
    strIn "working" (pyLower "not working") = true ∧
    strIn "not working" (pyLower "not working") = true ∧
    handle_installation_complete s "not working" none =
      (s, SUCCESSFUL_INSTALLATION_MESSAGE) := by
  have h1 : handle_installation_complete s msg none =
      (s, SUCCESSFUL_INSTALLATION_MESSAGE) := by
    unfold handle_installation_complete
    simp [hsucc]
  have h2 : (strIn "yes" (pyLower "not working")
      || strIn "working" (pyLower "not working")) = true := by decide
  refine ⟨h1, by rw [h1], by decide, by decide, ?_⟩
  unfold handle_installation_complete
  simp [h2]

def c10WitnessState : ConversationState :=
  { ConversationState.init with stage := ConversationStage.INSTALLATION_COMPLETE, installation_method := some "Drill and Tap", installation_complete := true }

theorem c10_success_precedence_witness :
    (strIn "yes" (pyLower "not working") || strIn "working" (pyLower "not working"))
      = true ∧
    handle_installation_complete c10WitnessState "not working" none =
      (c10WitnessState, SUCCESSFUL_INSTALLATION_MESSAGE) :=
  ⟨by decide,
   (c10_success_precedence c10WitnessState "not working" rfl (by decide)).1⟩

set_option maxRecDepth 200000

/-- C6 counterexample: processing "fan" against a freshly created state with
no intent does NOT select the machine type.  The welcome-stage handler
ignores the message: it returns the welcome text and merely advances to
MACHINE_SELECTION, leaving `machine_type` unset (the repository's own
interactive test script sends a throwaway "hello" first for this reason). -/
theorem c6_counterexample :
    (process_message emptyEnv ConversationState.init "fan" none).1.machine_type
      = none ∧
    (process_message emptyEnv ConversationState.init "fan" none).1.stage
      = ConversationStage.MACHINE_SELECTION ∧
    (process_message emptyEnv ConversationState.init "fan" none).2
      = WELCOME_MESSAGE ∧
    strIn "fan configuration"
      (process_message emptyEnv ConversationState.init "fan" none).2 = false := by
  refine ⟨rfl, rfl, rfl, by decide⟩

/-- C6 amended: against a freshly created state the first message "fan" only
triggers the welcome text and moves the state to MACHINE_SELECTION with the
message content ignored; processing "fan" a second time (now in stage
MACHINE_SELECTION, with no intent) sets `machine_type = "Fan"`, advances to
CONFIGURATION_SELECTION, and returns the fan-configuration prompt. -/
theorem c6_amended_two_messages :
    (process_message emptyEnv ConversationState.init "fan" none).2
      = WELCOME_MESSAGE ∧
    (process_message emptyEnv ConversationState.init "fan" none).1.stage
      = ConversationStage.MACHINE_SELECTION ∧
    (process_message emptyEnv
        (process_message emptyEnv ConversationState.init "fan" none).1
        "fan" none).1.machine_type = some "Fan" ∧
    (process_message emptyEnv
        (process_message emptyEnv ConversationState.init "fan" none).1
        "fan" none).1.stage = ConversationStage.CONFIGURATION_SELECTION ∧
    (process_message emptyEnv
        (process_message emptyEnv ConversationState.init "fan" none).1
        "fan" none).2 = FAN_CONFIGURATION_PROMPT := by
  refine ⟨rfl, rfl, ?_, ?_, ?_⟩ <;> decide

/-- A forward signal at the installation-steps stage: the message reaches the
advance branch of the handler's chain — no video, help or escalation keyword
matches, and the message is affirmative or mentions "next"/"ready". -/
def forwardSignal (msg : String) : Bool :=
  let m := pyLower msg
  !(strIn "video" m || strIn "show me" m) &&
  !(strIn "help" m || strIn "issue" m || strIn "problem" m) &&
  !(strIn "proaxion" m || strIn "support" m || strIn "expert" m) &&
  (is_affirmative msg || strIn "next" m || strIn "ready" m)

lemma steps_forward (env : BotEnv) (s : ConversationState) (msg : String)
    (c : Nat) (hcs : s.current_step = some c) (hfs : forwardSignal msg = true) :
    handle_installation_steps env s msg none =
      (if get_total_steps env.knowledge_base s.installation_method < c + 1 then
        (({ s with current_step := some (c + 1), installation_complete := true }).advance_stage,
          INSTALLATION_COMPLETE_MESSAGE_fmt (pyStr s.installation_method))
      else
        ({ s with current_step := some (c + 1) },
          get_step_guidance env s.installation_method (c + 1))) := by
  simp only [forwardSignal, Bool.and_eq_true, Bool.not_eq_true',
    Bool.or_eq_false_iff] at hfs
  obtain ⟨⟨⟨⟨hv, hsm⟩, ⟨⟨hh, hi⟩, hp⟩⟩, ⟨⟨hpx, hsu⟩, hex⟩⟩, hnext⟩ := hfs
  unfold handle_installation_steps
  dsimp only
  rw [if_neg (by simp [hv, hsm]), if_neg (by simp [hh, hi, hp]),
    if_neg (by simp [hpx, hsu, hex]), if_pos (by simp [hnext]), hcs]
  rfl

/-- C4: in stage INSTALLATION_STEPS with no intent, a forward signal
increments `current_step` by exactly 1; no branch of the handler ever
decreases it.  When the incremented step exceeds the method's total step
count the handler sets `installation_complete` and advances to
INSTALLATION_COMPLETE; otherwise it stays in INSTALLATION_STEPS and returns
the next step's guidance.  In particular, with current step 6 of 6 steps the
message "yes" yields step 7, `installation_complete = true` and stage
INSTALLATION_COMPLETE. -/
theorem c4_step_advancement (env : BotEnv) (s : ConversationState)
    (msg : String) (c : Nat)
    (hstage : s.stage = ConversationStage.INSTALLATION_STEPS)
    (hcs : s.current_step = some c) :
    (forwardSignal msg = true →
      (handle_installation_steps env s msg none).1.current_step = some (c + 1) ∧
      (get_total_steps env.knowledge_base s.installation_method < c + 1 →
        (handle_installation_steps env s msg none).1.installation_complete = true ∧
        (handle_installation_steps env s msg none).1.stage =
          ConversationStage.INSTALLATION_COMPLETE) ∧
      (c + 1 ≤ get_total_steps env.knowledge_base s.installation_method →
        (handle_installation_steps env s msg none).1.stage =
          ConversationStage.INSTALLATION_STEPS ∧
        (handle_installation_steps env s msg none).1.installation_complete =
          s.installation_complete ∧
        (handle_installation_steps env s msg none).2 =
          get_step_guidance env s.installation_method (c + 1))) ∧
    c ≤ (handle_installation_steps env s msg none).1.current_step.getD 0 ∧
    (msg = "yes" → get_total_steps env.knowledge_base s.installation_method = 6 →
      c = 6 →
      (handle_installation_steps env s msg none).1.current_step = some 7 ∧
      (handle_installation_steps env s msg none).1.installation_complete = true ∧
      (handle_installation_steps env s msg none).1.stage =
        ConversationStage.INSTALLATION_COMPLETE) := by
  refine ⟨?_, ?_, ?_⟩
  · intro hfs
    rw [steps_forward env s msg c hcs hfs]
    refine ⟨?_, ?_, ?_⟩
    · split
      · simp [ConversationState.advance_stage]
      · rfl
    · intro hgt
      rw [if_pos hgt]
      simp [ConversationState.advance_stage, hstage]
      decide
    · intro hle
      rw [if_neg (by omega)]
      exact ⟨hstage, rfl, rfl⟩
  · unfold handle_installation_steps
    dsimp only
    repeat' split
    all_goals simp [hcs, ConversationState.add_issue, ConversationState.advance_stage]
  · intro hmsg htot hc6
    subst hmsg; subst hc6
    rw [steps_forward env s "yes" 6 hcs (by decide), if_pos (by omega)]
    simp [ConversationState.advance_stage, hstage]
    decide

def c4WitnessState : ConversationState :=
  { ConversationState.init with stage := ConversationStage.INSTALLATION_STEPS, machine_type := some "Fan", configuration := some "Belt Driven", sensor_count := some 3, installation_method := some "Drill and Tap", current_step := some 6 }

theorem c4_step_advancement_witness :
    forwardSignal "yes" = true ∧
    (handle_installation_steps emptyEnv c4WitnessState "yes" none).1.current_step
      = some 7 ∧
    (handle_installation_steps emptyEnv c4WitnessState "yes" none).1.installation_complete
      = true ∧
    (handle_installation_steps emptyEnv c4WitnessState "yes" none).1.stage
      = ConversationStage.INSTALLATION_COMPLETE :=
  ⟨by decide,
   ((c4_step_advancement emptyEnv c4WitnessState "yes" 6 rfl rfl).2.2 rfl rfl rfl).1,
   ((c4_step_advancement emptyEnv c4WitnessState "yes" 6 rfl rfl).2.2 rfl rfl rfl).2.1,
   ((c4_step_advancement emptyEnv c4WitnessState "yes" 6 rfl rfl).2.2 rfl rfl rfl).2.2⟩

lemma recommendation_unset (env : BotEnv) (s : ConversationState)
    (msg : String) (hmt : s.monitoring_target = none) :
    handle_recommendation env s msg none =
      (let stored := orDefault (if is_negative msg then some "General"
          else extract_monitoring_target msg) "General"
       let n := s.sensor_count.getD 0
       if s.configuration = some "Direct/Close Coupled" then
         ({ s with monitoring_target := some stored,
                   recommended_placement := directRecommendations n },
           RECOMMENDATION_TEMPLATE_fmt (pyStr s.configuration)
             (pyStr s.machine_type) 3 n (numberedJoin (directRecommendations n)))
       else if s.configuration = some "Belt Driven" then
         ({ s with monitoring_target := some stored,
                   recommended_placement := beltRecommendations n },
           RECOMMENDATION_TEMPLATE_fmt (pyStr s.configuration)
             (pyStr s.machine_type) 4 n
             (beltRecText (beltRecommendations n) (beltDetails n)))
       else
         ({ s with monitoring_target := some stored },
           genericRecommendationText (pyStr s.configuration) s.sensor_count)) := by
  unfold handle_recommendation
  rw [hmt]
  rfl

lemma directRec_head (n : Nat) :
    (directRecommendations n).head? =
      some "Motor Drive-End (DE) - HIGHEST PRIORITY" := by
  unfold directRecommendations
  rfl

lemma beltRec_head (n : Nat) :
    (beltRecommendations n).head? =
      some "Motor Drive-End (DE) - HIGHEST PRIORITY" := by
  unfold beltRecommendations
  rfl

lemma directRec_mem_nde (n : Nat) :
    ("Motor Non-Drive-End (NDE) - For motors ≥ 150 hp" ∈
      directRecommendations n) ↔ 2 ≤ n := by
  unfold directRecommendations
  by_cases h2 : 2 ≤ n <;> by_cases h3 : 3 ≤ n <;>
    simp [h2, h3] <;> decide

lemma directRec_mem_fan (n : Nat) :
    ("Fan shaft bearings (if accessible)" ∈ directRecommendations n) ↔ 3 ≤ n := by
  unfold directRecommendations
  by_cases h2 : 2 ≤ n <;> by_cases h3 : 3 ≤ n <;>
    simp [h2, h3] <;> decide

lemma directRec_length (n : Nat) : (directRecommendations n).length ≤ 3 := by
  unfold directRecommendations
  by_cases h2 : 2 ≤ n <;> by_cases h3 : 3 ≤ n <;> simp [h2, h3]

lemma beltRec_mem_nde (n : Nat) :
    ("Motor Non-Drive-End (NDE) - For motors ≥ 150 hp" ∈
      beltRecommendations n) ↔ 2 ≤ n := by
  unfold beltRecommendations
  by_cases h2 : 2 ≤ n <;> by_cases h3 : 3 ≤ n <;> by_cases h4 : 4 ≤ n <;>
    simp [h2, h3, h4] <;> decide

lemma beltRec_mem_belt (n : Nat) :
    ("Belt-Side bearing" ∈ beltRecommendations n) ↔ 3 ≤ n := by
  unfold beltRecommendations
  by_cases h2 : 2 ≤ n <;> by_cases h3 : 3 ≤ n <;> by_cases h4 : 4 ≤ n <;>
    simp [h2, h3, h4] <;> decide

lemma beltRec_mem_fan (n : Nat) :
    ("Fan-Side bearing" ∈ beltRecommendations n) ↔ 4 ≤ n := by
  unfold beltRecommendations
  by_cases h2 : 2 ≤ n <;> by_cases h3 : 3 ≤ n <;> by_cases h4 : 4 ≤ n <;>
    simp [h2, h3, h4] <;> decide

lemma beltRec_length (n : Nat) : (beltRecommendations n).length ≤ 4 := by
  unfold beltRecommendations
  by_cases h2 : 2 ≤ n <;> by_cases h3 : 3 ≤ n <;> by_cases h4 : 4 ≤ n <;>
    simp [h2, h3, h4]

/-- C1: in stage RECOMMENDATION with `monitoring_target` unset and no
intent, the placement list is built exactly as specified: Motor Drive-End
first for every sensor count n ≥ 1; Motor Non-Drive-End present iff n ≥ 2;
for Belt Driven the Belt-Side bearing iff n ≥ 3 and the Fan-Side bearing
iff n ≥ 4 (at most 4 items); for Direct/Close Coupled the fan shaft
bearings iff n ≥ 3 and no fourth item; any other configuration gets the
generic one-line recommendation and `recommended_placement` stays empty.
With configuration "Belt Driven", 3 sensors and message "general", the
target becomes "General" and the response enumerates exactly Motor DE,
Motor NDE and the Belt-Side bearing. -/
theorem c1_recommendation_rules (env : BotEnv) (s : ConversationState)
    (msg : String) (n : Nat)
    (hstage : s.stage = ConversationStage.RECOMMENDATION)
    (hmt : s.monitoring_target = none)
    (hsc : s.sensor_count = some n)
    (hrp : s.recommended_placement = [])
    (hn : 1 ≤ n) :
    (s.configuration = some "Direct/Close Coupled" →
      (handle_recommendation env s msg none).1.recommended_placement.head? =
        some "Motor Drive-End (DE) - HIGHEST PRIORITY" ∧
      ("Motor Non-Drive-End (NDE) - For motors ≥ 150 hp" ∈
        (handle_recommendation env s msg none).1.recommended_placement ↔ 2 ≤ n) ∧
      ("Fan shaft bearings (if accessible)" ∈
        (handle_recommendation env s msg none).1.recommended_placement ↔ 3 ≤ n) ∧
      (handle_recommendation env s msg none).1.recommended_placement.length ≤ 3) ∧
    (s.configuration = some "Belt Driven" →
      (handle_recommendation env s msg none).1.recommended_placement.head? =
        some "Motor Drive-End (DE) - HIGHEST PRIORITY" ∧
      ("Motor Non-Drive-End (NDE) - For motors ≥ 150 hp" ∈
        (handle_recommendation env s msg none).1.recommended_placement ↔ 2 ≤ n) ∧
      ("Belt-Side bearing" ∈
        (handle_recommendation env s msg none).1.recommended_placement ↔ 3 ≤ n) ∧
      ("Fan-Side bearing" ∈
        (handle_recommendation env s msg none).1.recommended_placement ↔ 4 ≤ n) ∧
      (handle_recommendation env s msg none).1.recommended_placement.length ≤ 4) ∧
    (s.configuration ≠ some "Direct/Close Coupled" →
      s.configuration ≠ some "Belt Driven" →
      (handle_recommendation env s msg none).1.recommended_placement = [] ∧
      (handle_recommendation env s msg none).2 =
        genericRecommendationText (pyStr s.configuration) (some n)) ∧
    (s.configuration = some "Belt Driven" → s.machine_type = some "Fan" →
      n = 3 → msg = "general" →
      (handle_recommendation env s msg none).1.monitoring_target = some "General" ∧
      (handle_recommendation env s msg none).1.recommended_placement =
        ["Motor Drive-End (DE) - HIGHEST PRIORITY",
         "Motor Non-Drive-End (NDE) - For motors ≥ 150 hp",
         "Belt-Side bearing"] ∧
      strIn "Motor Drive-End" (handle_recommendation env s msg none).2 = true ∧
      strIn "Motor Non-Drive-End" (handle_recommendation env s msg none).2 = true ∧
      strIn "Belt-Side bearing" (handle_recommendation env s msg none).2 = true ∧
      strIn "Fan-Side bearing" (handle_recommendation env s msg none).2 = false) := by
  have hre := recommendation_unset env s msg hmt
  refine ⟨?_, ?_, ?_, ?_⟩
  · intro hconf
    rw [hre]
    dsimp only
    rw [if_pos hconf, hsc]
    dsimp only [Option.getD]
    exact ⟨directRec_head n, directRec_mem_nde n, directRec_mem_fan n,
      directRec_length n⟩
  · intro hconf
    rw [hre]
    dsimp only
    rw [if_neg (by rw [hconf]; decide), if_pos hconf, hsc]
    dsimp only [Option.getD]
    exact ⟨beltRec_head n, beltRec_mem_nde n, beltRec_mem_belt n,
      beltRec_mem_fan n, beltRec_length n⟩
  · intro hc1 hc2
    rw [hre]
    dsimp only
    rw [if_neg hc1, if_neg hc2, hsc]
    exact ⟨hrp, rfl⟩
  · intro hconf hmtype hn3 hmsg
    subst hn3; subst hmsg
    rw [hre]
    dsimp only
    rw [if_neg (by rw [hconf]; decide), if_pos hconf, hsc, hconf, hmtype]
    dsimp only
    refine ⟨by decide, by decide, by decide, by decide, by decide, by decide⟩

def c1WitnessState : ConversationState :=
  { ConversationState.init with stage := ConversationStage.RECOMMENDATION, machine_type := some "Fan", configuration := some "Belt Driven", orientation := some "Center Hung", rpm := some 1750, sensor_count := some 3 }

theorem c1_recommendation_rules_witness :
    (handle_recommendation emptyEnv c1WitnessState "general" none).1.monitoring_target
      = some "General" ∧
    (handle_recommendation emptyEnv c1WitnessState "general" none).1.recommended_placement
      = ["Motor Drive-End (DE) - HIGHEST PRIORITY",
         "Motor Non-Drive-End (NDE) - For motors ≥ 150 hp",
         "Belt-Side bearing"] ∧
    strIn "Fan-Side bearing"
      (handle_recommendation emptyEnv c1WitnessState "general" none).2 = false :=
  ⟨((c1_recommendation_rules emptyEnv c1WitnessState "general" 3 rfl rfl rfl rfl
      (by decide)).2.2.2 rfl rfl rfl rfl).1,
   ((c1_recommendation_rules emptyEnv c1WitnessState "general" 3 rfl rfl rfl rfl
      (by decide)).2.2.2 rfl rfl rfl rfl).2.1,
   ((c1_recommendation_rules emptyEnv c1WitnessState "general" 3 rfl rfl rfl rfl
      (by decide)).2.2.2 rfl rfl rfl rfl).2.2.2.2.2⟩

lemma rec_placement (env : BotEnv) (s : ConversationState) (msg : String)
    (config : String) (n : Nat) (hmt : s.monitoring_target = none)
    (hconf : s.configuration = some config) (hsc : s.sensor_count = some n)
    (hc : config = "Direct/Close Coupled" ∨ config = "Belt Driven") :
    (handle_recommendation env s msg none).1.recommended_placement =
      if config = "Direct/Close Coupled" then directRecommendations n
      else beltRecommendations n := by
  rw [recommendation_unset env s msg hmt]
  dsimp only
  rcases hc with h | h <;> subst h
  · rw [if_pos hconf, hsc,
      if_pos (rfl : ("Direct/Close Coupled" : String) = "Direct/Close Coupled")]
    rfl
  · rw [if_neg (by rw [hconf]; decide), if_pos hconf, hsc,
      if_neg (show ¬ ("Belt Driven" : String) = "Direct/Close Coupled" by decide)]
    rfl

lemma directRec_len (n : Nat) :
    (directRecommendations n).length =
      1 + (if 2 ≤ n then 1 else 0) + (if 3 ≤ n then 1 else 0) := by
  unfold directRecommendations
  by_cases h2 : 2 ≤ n <;> by_cases h3 : 3 ≤ n <;> simp [h2, h3]

lemma beltRec_len (n : Nat) :
    (beltRecommendations n).length =
      1 + (if 2 ≤ n then 1 else 0) + (if 3 ≤ n then 1 else 0)
        + (if 4 ≤ n then 1 else 0) := by
  unfold beltRecommendations
  by_cases h2 : 2 ≤ n <;> by_cases h3 : 3 ≤ n <;> by_cases h4 : 4 ≤ n <;>
    simp [h2, h3, h4]

lemma directRec_len_mono {n m : Nat} (h : n ≤ m) :
    (directRecommendations n).length ≤ (directRecommendations m).length := by
  rw [directRec_len, directRec_len]
  split_ifs <;> omega

lemma beltRec_len_mono {n m : Nat} (h : n ≤ m) :
    (beltRecommendations n).length ≤ (beltRecommendations m).length := by
  rw [beltRec_len, beltRec_len]
  split_ifs <;> omega

/-- C5: over the two known configurations and sensor counts 1..5, the
placement list is a deterministic function of `(configuration,
sensor_count)` — two handler runs with those inputs equal, whatever the
message and whatever the other state fields — and its length is
non-decreasing in the sensor count, capped at 3 for Direct/Close Coupled
and at 4 for Belt Driven. -/
theorem c5_deterministic_monotone (env : BotEnv) (msg1 msg2 : String)
    (s1 s2 : ConversationState) (config : String) (n m : Nat)
    (hc : config = "Direct/Close Coupled" ∨ config = "Belt Driven")
    (h1 : s1.configuration = some config) (h2 : s2.configuration = some config)
    (hm1 : s1.monitoring_target = none) (hm2 : s2.monitoring_target = none)
    (hn1 : s1.sensor_count = some n) (hn2 : s2.sensor_count = some m)
    (hn : 1 ≤ n) (hnm : n ≤ m) (hm5 : m ≤ 5) :
    (n = m →
      (handle_recommendation env s1 msg1 none).1.recommended_placement =
        (handle_recommendation env s2 msg2 none).1.recommended_placement) ∧
    (handle_recommendation env s1 msg1 none).1.recommended_placement.length ≤
      (handle_recommendation env s2 msg2 none).1.recommended_placement.length ∧
    (handle_recommendation env s2 msg2 none).1.recommended_placement.length ≤
      (if config = "Direct/Close Coupled" then 3 else 4) := by
  rw [rec_placement env s1 msg1 config n hm1 h1 hn1 hc,
      rec_placement env s2 msg2 config m hm2 h2 hn2 hc]
  rcases hc with h | h <;> subst h
  · rw [if_pos rfl, if_pos rfl, if_pos rfl]
    exact ⟨fun he => by rw [he], directRec_len_mono hnm, directRec_length m⟩
  · rw [if_neg (by decide), if_neg (by decide), if_neg (by decide)]
    exact ⟨fun he => by rw [he], beltRec_len_mono hnm, beltRec_length m⟩

def c5WitnessState1 : ConversationState :=
  { ConversationState.init with stage := ConversationStage.RECOMMENDATION, machine_type := some "Fan", configuration := some "Belt Driven", sensor_count := some 2 }

def c5WitnessState2 : ConversationState :=
  { ConversationState.init with stage := ConversationStage.RECOMMENDATION, machine_type := some "Fan", configuration := some "Belt Driven", sensor_count := some 4 }

theorem c5_deterministic_monotone_witness :
    (handle_recommendation emptyEnv c5WitnessState1 "general" none).1.recommended_placement.length ≤
      (handle_recommendation emptyEnv c5WitnessState2 "anything" none).1.recommended_placement.length ∧
    (handle_recommendation emptyEnv c5WitnessState2 "anything" none).1.recommended_placement.length ≤
      (if "Belt Driven" = "Direct/Close Coupled" then 3 else 4) :=
  ⟨(c5_deterministic_monotone emptyEnv "general" "anything" c5WitnessState1
      c5WitnessState2 "Belt Driven" 2 4 (Or.inr rfl) rfl rfl rfl rfl rfl rfl
      (by decide) (by decide) (by decide)).2.1,
   (c5_deterministic_monotone emptyEnv "general" "anything" c5WitnessState1
      c5WitnessState2 "Belt Driven" 2 4 (Or.inr rfl) rfl rfl rfl rfl rfl rfl
      (by decide) (by decide) (by decide)).2.2⟩

lemma falsyStr_none : falsyStr none = true := rfl

lemma falsyNat_none : falsyNat none = true := rfl

/-- C7 counterexample: the claim quantifies over every stage handler, but
the welcome handler mutates `state.stage` on every call, message content
notwithstanding — applied to the fresh state it moves the stage from
WELCOME to MACHINE_SELECTION. -/
theorem c7_counterexample :
    (handle_welcome ConversationState.init).1.stage ≠
      ConversationState.init.stage ∧
    (handle_welcome ConversationState.init).1.stage =
      ConversationStage.MACHINE_SELECTION := by
  exact ⟨by decide, rfl⟩

/-- C7 amended: for the handlers of the seven stages other than WELCOME and
RECOMMENDATION, an unrecognized message with no intent returns the state
entirely unchanged together with a fixed re-prompt (so repeated calls with
the same input return the same text and never mutate `state.stage`).  The
welcome handler instead advances the stage unconditionally, and the
recommendation handler with no monitoring target treats an unrecognized
message as the target "General". -/
theorem c7_unrecognized_idempotent (env : BotEnv) (s : ConversationState)
    (msg : String) :
    (falsyStr (extract_machine_type msg) = true →
      handle_machine_selection s msg none = (s, MACHINE_TYPE_ERROR)) ∧
    (falsyStr (extract_configuration msg) = true →
      handle_configuration s msg none =
        (s, CONFIGURATION_ERROR_fmt (pyStr s.machine_type))) ∧
    (falsyStr s.orientation = true → falsyStr (extract_orientation msg) = true →
      handle_additional_info s msg none =
        (s, ORIENTATION_ERROR_fmt (pyStr s.machine_type))) ∧
    (falsyStr s.orientation = false → falsyNat (extract_rpm msg) = true →
      handle_additional_info s msg none = (s, RPM_ERROR)) ∧
    (falsyNat (extract_number msg) = true →
      handle_sensor_count s msg none = (s, SENSOR_COUNT_ERROR)) ∧
    (falsyStr s.installation_method = true →
      strIn "yes" (pyLower msg) = false → strIn "drill" (pyLower msg) = false →
      strIn "tap" (pyLower msg) = false → strIn "epoxy" (pyLower msg) = false →
      strIn "adhesive" (pyLower msg) = false →
      strIn "magnet" (pyLower msg) = false →
      strIn "adapter" (pyLower msg) = false →
      handle_installation_start env s msg none =
        (s, "Please select an installation method: Drill and Tap (recommended), Epoxy Mount, Other Adapter Options, or Magnets.")) ∧
    (falsyStr s.installation_method = false →
      strIn "full video" (pyLower msg) = false →
      strIn "show video" (pyLower msg) = false →
      strIn "step by step" (pyLower msg) = false →
      strIn "guide" (pyLower msg) = false → is_affirmative msg = false →
      handle_installation_start env s msg none =
        (s, "Would you like to see the full installation video, or shall we proceed step by step?")) ∧
    (strIn "video" (pyLower msg) = false → strIn "show me" (pyLower msg) = false →
      strIn "help" (pyLower msg) = false → strIn "issue" (pyLower msg) = false →
      strIn "problem" (pyLower msg) = false →
      strIn "proaxion" (pyLower msg) = false →
      strIn "support" (pyLower msg) = false →
      strIn "expert" (pyLower msg) = false → is_affirmative msg = false →
      strIn "next" (pyLower msg) = false → strIn "ready" (pyLower msg) = false →
      handle_installation_steps env s msg none =
        (s, get_step_guidance env s.installation_method
          (s.current_step.getD 0))) ∧
    (strIn "yes" (pyLower msg) = false → strIn "working" (pyLower msg) = false →
      strIn "issue" (pyLower msg) = false →
      strIn "problem" (pyLower msg) = false →
      strIn "not working" (pyLower msg) = false →
      handle_installation_complete s msg none =
        (s, "Is your sensor working correctly? If you\x27re experiencing any issues, I can connect you with ProAxion support for assistance.")) := by
  refine ⟨?_, ?_, ?_, ?_, ?_, ?_, ?_, ?_, ?_⟩
  · intro h
    unfold handle_machine_selection
    simp [intentEntity, falsyStr_none, h]
  · intro h
    unfold handle_configuration
    simp [intentEntity, falsyStr_none, h]
  · intro ho h
    unfold handle_additional_info
    simp [intentEntity, falsyStr_none, ho, h]
  · intro ho h
    unfold handle_additional_info
    simp [intentEntity, intentEntityNat, falsyStr_none, falsyNat_none, ho, h]
  · intro h
    unfold handle_sensor_count
    simp [intentEntity, intentEntityNat, falsyNat_none, h]
  · intro hm h1 h2 h3 h4 h5 h6 h7
    unfold handle_installation_start
    simp [intentEntity, falsyStr_none, hm, h1, h2, h3, h4, h5, h6, h7]
  · intro hm h1 h2 h3 h4 h5
    unfold handle_installation_start
    simp [intentEntity, falsyStr_none, hm, h1, h2, h3, h4, h5]
  · intro h1 h2 h3 h4 h5 h6 h7 h8 h9 h10 h11
    unfold handle_installation_steps
    simp [h1, h2, h3, h4, h5, h6, h7, h8, h9, h10, h11]
  · intro h1 h2 h3 h4 h5
    unfold handle_installation_complete
    simp [h1, h2, h3, h4, h5]

def c7WitnessStateB : ConversationState :=
  { ConversationState.init with stage := ConversationStage.INSTALLATION_STEPS, orientation := some "Center Hung", installation_method := some "Drill and Tap", current_step := some 2 }

theorem c7_unrecognized_idempotent_witness :
    handle_machine_selection ConversationState.init "qqq" none =
      (ConversationState.init, MACHINE_TYPE_ERROR) ∧
    handle_additional_info c7WitnessStateB "qqq" none =
      (c7WitnessStateB, RPM_ERROR) ∧
    handle_installation_steps emptyEnv c7WitnessStateB "qqq" none =
      (c7WitnessStateB, get_step_guidance emptyEnv
        c7WitnessStateB.installation_method
        (c7WitnessStateB.current_step.getD 0)) ∧
    handle_installation_complete ConversationState.init "qqq" none =
      (ConversationState.init,
        "Is your sensor working correctly? If you\x27re experiencing any issues, I can connect you with ProAxion support for assistance.") :=
  ⟨(c7_unrecognized_idempotent emptyEnv ConversationState.init "qqq").1 (by decide),
   (c7_unrecognized_idempotent emptyEnv c7WitnessStateB "qqq").2.2.2.1
     (by decide) (by decide),
   (c7_unrecognized_idempotent emptyEnv c7WitnessStateB "qqq").2.2.2.2.2.2.2.1
     (by decide) (by decide) (by decide) (by decide) (by decide) (by decide)
     (by decide) (by decide) (by decide) (by decide) (by decide),
   (c7_unrecognized_idempotent emptyEnv ConversationState.init "qqq").2.2.2.2.2.2.2.2
     (by decide) (by decide) (by decide) (by decide) (by decide)⟩

lemma totalStepsInMachine_none (method : Option String)
    (ims : List InstallationMethod)
    (h : ∀ im ∈ ims, im.name = method → im.steps = []) :
    totalStepsInMachine method ims = none := by
  induction ims with
  | nil => rfl
  | cons im rest ih =>
    unfold totalStepsInMachine
    by_cases hb : (im.name == method) = true
    · rw [if_pos hb]
      have heq : im.name = method := by simpa using hb
      have hs := h im (by simp) heq
      rw [hs]
      exact ih (fun x hx hn => h x (by simp [hx]) hn)
    · rw [if_neg hb]
      exact ih (fun x hx hn => h x (by simp [hx]) hn)

lemma stepsInMachine_none (method : Option String)
    (ims : List InstallationMethod)
    (h : ∀ im ∈ ims, im.name = method → im.steps = []) :
    stepsInMachine method ims = none := by
  induction ims with
  | nil => rfl
  | cons im rest ih =>
    unfold stepsInMachine
    by_cases hb : (im.name == method) = true
    · rw [if_pos hb]
      have heq : im.name = method := by simpa using hb
      have hs := h im (by simp) heq
      rw [hs]
      exact ih (fun x hx hn => h x (by simp [hx]) hn)
    · rw [if_neg hb]
      exact ih (fun x hx hn => h x (by simp [hx]) hn)

lemma findSteps_nil (machines : List Machine) (method : Option String)
    (h : ∀ mach ∈ machines, ∀ im ∈ mach.installation_methods,
      im.name = method → im.steps = []) :
    findSteps machines method = [] := by
  unfold findSteps
  induction machines with
  | nil => rfl
  | cons mach rest ih =>
    simp only [List.foldl_cons]
    rw [stepsInMachine_none method mach.installation_methods
      (h mach (by simp))]
    exact ih (fun x hx => h x (by simp [hx]))

lemma get_total_steps_default (machines : List Machine) (method : Option String)
    (h : ∀ mach ∈ machines, ∀ im ∈ mach.installation_methods,
      im.name = method → im.steps = []) :
    get_total_steps { machines := machines } method = 6 := by
  unfold get_total_steps
  have hscan : totalStepsScan method machines = none := by
    induction machines with
    | nil => rfl
    | cons mach rest ih =>
      unfold totalStepsScan
      rw [totalStepsInMachine_none method mach.installation_methods
        (h mach (by simp))]
      exact ih (fun x hx => h x (by simp [hx]))
  rw [hscan]
  rfl

lemma format_video_reference_ne_empty (env : BotEnv) (p : String) :
    ¬ format_video_reference env p = "" := by
  unfold format_video_reference
  split <;> intro h
  · have h1 : (("[VIDEO: ".length = 0 ∧ String.length p = 0) ∧
        ("]" : String).length = 0) := by
      simpa using congrArg String.length h
    exact absurd h1.2 (by decide)
  · have h1 : (("[VIDEO NOT FOUND: ".length = 0 ∧ String.length p = 0) ∧
        ("]" : String).length = 0) := by
      simpa using congrArg String.length h
    exact absurd h1.2 (by decide)

def c8Kb : KnowledgeBase :=
  { machines := [{ installation_methods := [{ name := some "Drill and Tap", steps := [{ description := [{ title := some "Prepare the Surface", description := some "Clean the mounting location." }] }] }] }] }

def c8BadEnv : BotEnv :=
  { knowledge_base := c8Kb, video_segments := fun k => if k = 1 then some { title := "Surface prep", start_time := "0:09", end_time := "0:20", video_path := "v.mp4" } else none, full_segment := none, fileExists := fun _ => false }

/-- C8 counterexample: with a video segment registered for step 1 whose file
is absent from the filesystem, the guidance for step 1 does not embed a
`[VIDEO: path]` token — it embeds `[VIDEO NOT FOUND: path]` instead, because
`_format_video_reference` checks file existence before emitting the
reference. -/
theorem c8_counterexample :
    (c8BadEnv.video_segments 1).isSome = true ∧
    strIn "[VIDEO: v.mp4]"
      (get_step_guidance c8BadEnv (some "Drill and Tap") 1) = false ∧
    strIn "[VIDEO NOT FOUND: v.mp4]"
      (get_step_guidance c8BadEnv (some "Drill and Tap") 1) = true := by
  exact ⟨rfl, by decide, by decide⟩

/-- C8 amended: the step-guidance lookup is total and never fails.  When the
method has no step data in the knowledge base (or the step list is empty, or
the step number exceeds it), it returns the generic continue-installation
text, and the total-step count falls back to the default of 6.  When the
step exists, it returns that step's title and description; when additionally
a video segment is registered for that step number it appends `[VIDEO:
path]` if the referenced file exists and `[VIDEO NOT FOUND: path]`
otherwise. -/
theorem c8_step_guidance_fallback (env : BotEnv) (method : Option String)
    (k : Nat) (hk : 1 ≤ k) :
    ((∀ mach ∈ env.knowledge_base.machines, ∀ im ∈ mach.installation_methods,
        im.name = method → im.steps = []) →
      get_step_guidance env method k = genericStepText k ∧
      get_total_steps env.knowledge_base method = 6) ∧
    (findSteps env.knowledge_base.machines method = [] →
      get_step_guidance env method k = genericStepText k) ∧
    ((findSteps env.knowledge_base.machines method).length < k →
      get_step_guidance env method k = genericStepText k) ∧
    (∀ steps : List StepItem,
      findSteps env.knowledge_base.machines method = steps → steps ≠ [] →
      k ≤ steps.length →
      (env.video_segments k = none →
        get_step_guidance env method k =
          STEP_GUIDANCE_TEMPLATE_fmt k steps.length
            ((steps.getD (k - 1) { title := none, description := none }).title.getD
              ("Step " ++ natStr k))
            ((steps.getD (k - 1)
              { title := none, description := none }).description.getD "")) ∧
      (∀ seg, env.video_segments k = some seg →
        get_step_guidance env method k =
          STEP_GUIDANCE_TEMPLATE_fmt k steps.length
            ((steps.getD (k - 1) { title := none, description := none }).title.getD
              ("Step " ++ natStr k))
            ((steps.getD (k - 1)
              { title := none, description := none }).description.getD "")
          ++ "\n\n" ++
          (if env.fileExists seg.video_path = true then
            "[VIDEO: " ++ seg.video_path ++ "]"
          else "[VIDEO NOT FOUND: " ++ seg.video_path ++ "]"))) := by
  refine ⟨?_, ?_, ?_, ?_⟩
  · intro h
    have hfind := findSteps_nil env.knowledge_base.machines method h
    constructor
    · unfold get_step_guidance
      dsimp only
      rw [hfind, if_pos (Or.inl rfl)]
    · have := get_total_steps_default env.knowledge_base.machines method h
      simpa using this
  · intro h
    unfold get_step_guidance
    dsimp only
    rw [h, if_pos (Or.inl rfl)]
  · intro h
    unfold get_step_guidance
    dsimp only
    rw [if_pos (Or.inr h)]
  · intro steps hsteps hne hlen
    have hcond : ¬(steps = [] ∨ steps.length < k) := by
      rintro (hc | hc)
      · exact hne hc
      · omega
    constructor
    · intro hv
      unfold get_step_guidance
      dsimp only
      rw [hsteps, if_neg hcond, hv]
      dsimp only
      rw [if_pos rfl]
    · intro seg hv
      unfold get_step_guidance
      dsimp only
      rw [hsteps, if_neg hcond, hv]
      dsimp only
      rw [if_neg (format_video_reference_ne_empty env seg.video_path)]
      rfl

theorem c8_step_guidance_fallback_witness :
    get_step_guidance emptyEnv (some "Drill and Tap") 4 = genericStepText 4 ∧
    get_total_steps emptyEnv.knowledge_base (some "Drill and Tap") = 6 :=
  ⟨((c8_step_guidance_fallback emptyEnv (some "Drill and Tap") 4 (by decide)).1
      (by simp [emptyEnv])).1,
   ((c8_step_guidance_fallback emptyEnv (some "Drill and Tap") 4 (by decide)).1
      (by simp [emptyEnv])).2⟩
